import Mathlib

/-!
# A shallow embedding of `pidfilelock`

This file models the `pidfilelock` Python package (modules `_base.py`,
`file.py`, `lock.py`, `tools.py`, `utils.py`) as a sequential state machine
over an explicit operating-system state, and proves the frozen claims about
it.

Modelling choices:

* Exactly one lock path is in play (the package operates on a single
  configured path per handle, and all handles in the claims share it), so the
  filesystem is `pathIno : Option Nat` — the inode currently linked at the
  path, if any — plus a table of inode data.  Unlink removes the link but
  keeps the inode data alive for still-open descriptors, exactly as POSIX
  does.
* `os.open`, `os.close`, `os.read`, `os.write`, `os.truncate`, `os.lseek`,
  `path.stat`, `os.fstat`, `path.unlink` and `fcntl.flock` are modelled as
  explicit state transformers.  Every read in the source happens at offset 0
  (either on a freshly opened descriptor or after `os.lseek(fd, 0)`), so file
  offsets are not tracked and a read returns the whole content.
* `fcntl.flock` locks are per open descriptor on an inode (each `os.open` in
  the source creates a fresh open file description).  A non-blocking request
  that conflicts raises `BlockingIOError`; a blocking request that conflicts
  with a lock held by another in-model descriptor cannot ever be granted in a
  sequential model, which we surface as the distinguished error `blocked`.
  A lock conversion by the holder (the exclusive → shared downgrade) is
  modelled as atomic; the kernel's transient release window is exactly the
  race the source's `_lock_verify` defends against, and states where another
  descriptor grabbed the lock in that window are covered by quantifying over
  arbitrary states.
* Python exceptions are the `Err` error monad.  `assert` failures are
  `assertionError`; `int("")`/`int("x")` is `valueError`.  The retry loops
  (`while True:`) take a fuel argument; exhausted fuel is the distinguished
  error `fuelExhausted` (the real loop would still be running).
* Process liveness (`tools.pid_is_running`) is a predicate from the state's
  set of running PIDs; the current process's PID always counts as running.
  Group permission bits require group membership, which the model does not
  track, so `os.open` checks the owner bit for the owner and the
  "other" bit otherwise.
-/

namespace Pidfilelock

/-- Python exceptions and model-level stops. -/
inductive Err where
  | assertionError
  | permissionError
  | fileNotFoundError
  | blockingIOError
  | valueError
  | notImplementedError
  /-- A blocking `flock` that conflicts with a lock held by another in-model
  descriptor: in a sequential model it can never be granted. -/
  | blocked
  /-- The fuel of a `while True:` loop ran out (the real loop is still
  spinning). -/
  | fuelExhausted
  /-- An OS call on a descriptor that is not open (unreachable from the
  modelled API). -/
  | osError
  deriving DecidableEq, Repr

/-- `fcntl.flock` lock kinds: `LOCK_SH` and `LOCK_EX`. -/
inductive LockKind where
  | shared
  | exclusive
  deriving DecidableEq, Repr

/-- An inode: identity, ownership, permission bits and file content.
Content is the raw byte string (the PID is stored as decimal ASCII). -/
structure Inode where
  ino : Nat
  uid : Nat
  gid : Nat
  mode : Nat
  content : String
  deriving DecidableEq, Repr

/-- An open file descriptor: its number and the inode it refers to. -/
structure OpenFD where
  fd : Nat
  ino : Nat
  deriving DecidableEq, Repr

/-- Observable filesystem events, recorded to state ordering properties
(unlink before close on release). -/
inductive Event where
  | unlinked
  /-- `path.unlink()` raised `FileNotFoundError` and the caller swallowed
  it. -/
  | unlinkMissing
  | closedE (fd : Nat)
  deriving DecidableEq, Repr

/-- The sequential OS state: the single lock path, live inodes, open
descriptors, the advisory-lock table, allocation counters, the set of
running PIDs other than our own, our identity, and the event trace. -/
structure Sys where
  pathIno : Option Nat
  inodes : List Inode
  fds : List OpenFD
  locks : List (Nat × LockKind)
  nextIno : Nat
  nextFd : Nat
  running : List Nat
  myPid : Nat
  myUid : Nat
  myGid : Nat
  trace : List Event
  deriving DecidableEq, Repr

/-- Look up an inode by number. -/
def findInode (s : Sys) (i : Nat) : Option Inode :=
  s.inodes.find? (fun ind => ind.ino == i)

/-- The inode a descriptor refers to. -/
def fdIno (s : Sys) (fd : Nat) : Option Nat :=
  (s.fds.find? (fun f => f.fd == fd)).map (fun f => f.ino)

/-- Write permission for `os.open(..., O_RDWR)`: the owner needs `S_IWUSR`
(0o200), anyone else the `S_IWOTH` bit (0o002); group membership is not
tracked. -/
def canWrite (ind : Inode) (uid : Nat) : Bool :=
  if ind.uid == uid then ind.mode / 128 % 2 == 1 else ind.mode / 2 % 2 == 1

/-- Read permission for `os.open(..., O_RDONLY)`: `S_IRUSR` (0o400) for the
owner, `S_IROTH` (0o004) otherwise. -/
def canRead (ind : Inode) (uid : Nat) : Bool :=
  if ind.uid == uid then ind.mode / 256 % 2 == 1 else ind.mode / 4 % 2 == 1

/-- `os.open(path, os.O_RDWR | os.O_CREAT, mode=mode)`: open the existing
file for read/write (permission checked) or create it owned by us with the
given mode.  Returns the new descriptor. -/
def osOpenCreate (s : Sys) (mode : Nat) : Except Err (Nat × Sys) :=
  match s.pathIno with
  | some i =>
    match findInode s i with
    | some ind =>
      if canWrite ind s.myUid then
        .ok (s.nextFd,
          { s with fds := ⟨s.nextFd, i⟩ :: s.fds, nextFd := s.nextFd + 1 })
      else
        .error .permissionError
    | none => .error .osError
  | none =>
    .ok (s.nextFd,
      { s with
        pathIno := some s.nextIno
        inodes := ⟨s.nextIno, s.myUid, s.myGid, mode, ""⟩ :: s.inodes
        fds := ⟨s.nextFd, s.nextIno⟩ :: s.fds
        nextIno := s.nextIno + 1
        nextFd := s.nextFd + 1 })

/-- `os.open(path, os.O_RDONLY)`: raises `FileNotFoundError` when the path
is absent. -/
def osOpenRead (s : Sys) : Except Err (Nat × Sys) :=
  match s.pathIno with
  | some i =>
    match findInode s i with
    | some ind =>
      if canRead ind s.myUid then
        .ok (s.nextFd,
          { s with fds := ⟨s.nextFd, i⟩ :: s.fds, nextFd := s.nextFd + 1 })
      else
        .error .permissionError
    | none => .error .osError
  | none => .error .fileNotFoundError

/-- `os.close(fd)`: drop the descriptor; its `flock` lock is released. -/
def osClose (s : Sys) (fd : Nat) : Sys :=
  { s with
    fds := s.fds.filter (fun f => f.fd != fd)
    locks := s.locks.filter (fun p => p.1 != fd)
    trace := s.trace ++ [Event.closedE fd] }

/-- Does a `flock` request of kind `k` on descriptor `fd` (referring to
inode `i`) conflict with a lock held by a different descriptor on the same
inode?  Shared locks coexist; anything conflicts with an exclusive lock. -/
def lockConflict (s : Sys) (fd : Nat) (i : Nat) (k : LockKind) : Bool :=
  s.locks.any (fun p =>
    p.1 != fd && fdIno s p.1 == some i &&
      (k == LockKind.exclusive || p.2 == LockKind.exclusive))

/-- Record that `fd` now holds a lock of kind `k` (replacing any lock it
already held: `flock` converts). -/
def setLock (s : Sys) (fd : Nat) (k : LockKind) : Sys :=
  { s with locks := (fd, k) :: s.locks.filter (fun p => p.1 != fd) }

/-- `fcntl.flock(fd, k | fcntl.LOCK_NB)`: grant or raise
`BlockingIOError`. -/
def flockNB (s : Sys) (fd : Nat) (k : LockKind) : Except Err Sys :=
  match fdIno s fd with
  | none => .error .osError
  | some i =>
    if lockConflict s fd i k then .error .blockingIOError
    else .ok (setLock s fd k)

/-- `fcntl.flock(fd, k)` (blocking): grant, or — when another in-model
descriptor holds a conflicting lock that sequential execution can never
release — stop with `blocked`. -/
def flockBlocking (s : Sys) (fd : Nat) (k : LockKind) : Except Err Sys :=
  match fdIno s fd with
  | none => .error .osError
  | some i =>
    if lockConflict s fd i k then .error .blocked
    else .ok (setLock s fd k)

/-- `pathlib.Path.stat()` of the lock path. -/
def pathStat (s : Sys) : Option Inode :=
  s.pathIno.bind (findInode s)

/-- `os.fstat(fd)`. -/
def osFstat (s : Sys) (fd : Nat) : Option Inode :=
  (fdIno s fd).bind (findInode s)

/-- `os.read(fd, io.DEFAULT_BUFFER_SIZE)` at offset 0 (every read in the
source happens at offset 0). -/
def osReadAll (s : Sys) (fd : Nat) : Option String :=
  (osFstat s fd).map (fun ind => ind.content)

/-- Replace the content of inode `i` (models `os.truncate(fd, 0)` followed
by `os.write(fd, data)`). -/
def setContent (s : Sys) (i : Nat) (c : String) : Sys :=
  { s with
    inodes := s.inodes.map (fun ind =>
      if ind.ino == i then { ind with content := c } else ind) }

/-- `os.fchown(fd, -1, gid)`: set the group of the descriptor's inode. -/
def fchownGid (s : Sys) (fd : Nat) (g : Nat) : Sys :=
  match fdIno s fd with
  | none => s
  | some i =>
    { s with
      inodes := s.inodes.map (fun ind =>
        if ind.ino == i then { ind with gid := g } else ind) }

/-- `pathlib.Path.unlink()`: remove the link (inode data stays for open
descriptors) or raise `FileNotFoundError`. -/
def pathUnlink (s : Sys) : Except Err Sys :=
  match s.pathIno with
  | none => .error .fileNotFoundError
  | some _ => .ok { s with pathIno := none, trace := s.trace ++ [Event.unlinked] }

/-- `tools.pid_is_running(pid)`: `os.kill(pid, 0)` — our own PID is always
running; `PermissionError` (alive but not signalable) counts as running and
is folded into the `running` set. -/
def pid_is_running (s : Sys) (pid : Nat) : Bool :=
  pid == s.myPid || s.running.contains pid

/-! ## The handle classes

`PIDBase.__init__` stores the path (implicit here: there is one path) and
`fileno = None`.  `PIDLock.__init__` additionally stores `mode`, the resolved
`group` gid and the `unsafe_cleanup` flag. -/

/-- `lock.PIDLock` in-memory state (the path is the model's single path). -/
structure PIDLock where
  mode : Nat
  group : Option Nat
  unsafe_cleanup : Bool
  fileno : Option Nat
  deriving DecidableEq, Repr

/-- `file.PIDFile` in-memory state. -/
structure PIDFile where
  fileno : Option Nat
  deriving DecidableEq, Repr

/-- `stat.S_IRUSR | stat.S_IWUSR | stat.S_IRGRP | stat.S_IWGRP | stat.S_IROTH`
= 0o664. -/
def DEFAULT_LOCK_MODE : Nat := 256 + 128 + 32 + 16 + 4

/-- A decimal digit's value, or `none`. -/
def digit? (c : Char) : Option Nat :=
  if '0' ≤ c ∧ c ≤ '9' then some (c.toNat - 48) else none

/-- Left fold of decimal digits (failing on a non-digit). -/
def parseDecCore : List Char → Nat → Option Nat
  | [], acc => some acc
  | c :: cs, acc =>
    match digit? c with
    | none => none
    | some d => parseDecCore cs (acc * 10 + d)

/-- Python's `int(content)` on lock-file content: the decimal value of a
non-empty all-digit string, `none` (a `ValueError`) otherwise.  The protocol
only ever writes `str(os.getpid())`, a plain digit string, so sign and
whitespace forms never occur. -/
def int_of (str : String) : Option Nat :=
  match str.data with
  | [] => none
  | l => parseDecCore l 0

/-- `PIDBase.pid`: `assert self.fileno is not None; os.lseek(fd, 0);
int(os.read(fd, ...))`.  `int` of an empty or non-numeric byte string raises
`ValueError`. -/
def basePid (s : Sys) (fileno : Option Nat) : Except Err Nat :=
  match fileno with
  | none => .error .assertionError
  | some fd =>
    match osReadAll s fd with
    | none => .error .osError
    | some c =>
      match int_of c with
      | some n => .ok n
      | none => .error .valueError

/-- The retry loop of `PIDFile.lock`: open read-only (missing file means "no
lock", returning `none`), take a blocking shared `flock`, re-check that the
path still names the inode we opened (otherwise close and retry).
`self.path.stat()` on a vanished path raises `FileNotFoundError`
(uncaught in the source). -/
def fileLockLoop : Nat → Sys → Except Err (Option Nat × Sys)
  | 0, _ => .error .fuelExhausted
  | fuel + 1, s =>
    match osOpenRead s with
    | .error .fileNotFoundError => .ok (none, s)
    | .error e => .error e
    | .ok (fd, s1) =>
      match flockBlocking s1 fd .shared with
      | .error e => .error e
      | .ok s2 =>
        match pathStat s2 with
        | none => .error .fileNotFoundError
        | some pind =>
          match osFstat s2 fd with
          | none => .error .osError
          | some find =>
            if pind.ino != find.ino then fileLockLoop fuel (osClose s2 fd)
            else .ok (some fd, s2)

/-- `PIDFile.lock()`: assert not already locked, then run the open/flock
retry loop; `False` when the file does not exist. -/
def pidFileLock (fuel : Nat) (pf : PIDFile) (s : Sys) :
    Except Err ((Bool × PIDFile) × Sys) :=
  match pf.fileno with
  | some _ => .error .assertionError
  | none =>
    match fileLockLoop fuel s with
    | .error e => .error e
    | .ok (none, s1) => .ok ((false, pf), s1)
    | .ok (some fd, s1) => .ok ((true, { fileno := some fd }), s1)

/-- `PIDFile.unlock()`: assert locked, close the descriptor. -/
def pidFileUnlock (pf : PIDFile) (s : Sys) : Except Err (PIDFile × Sys) :=
  match pf.fileno with
  | none => .error .assertionError
  | some fd => .ok ({ fileno := none }, osClose s fd)

/-- `PIDFile.pid` (property): auto-lock when not locked (returning the
sentinel `-1` when the file is missing), read via `PIDBase.pid`, auto-unlock.
A `ValueError` from the read propagates. -/
def pidFilePid (fuel : Nat) (pf : PIDFile) (s : Sys) :
    Except Err ((Int × PIDFile) × Sys) :=
  match pf.fileno with
  | some fd =>
    match basePid s (some fd) with
    | .error e => .error e
    | .ok n => .ok (((n : Int), pf), s)
  | none =>
    match pidFileLock fuel pf s with
    | .error e => .error e
    | .ok ((false, pf1), s1) => .ok (((-1 : Int), pf1), s1)
    | .ok ((true, pf1), s1) =>
      match basePid s1 pf1.fileno with
      | .error e => .error e
      | .ok n =>
        match pidFileUnlock pf1 s1 with
        | .error e => .error e
        | .ok (pf2, s2) => .ok (((n : Int), pf2), s2)

/-- `PIDFile.is_running` (property): lock if needed (`False` when the file is
missing), read `self.pid` — with the descriptor set the property is exactly
the `PIDBase.pid` read — test `pid_is_running`, unlock if we locked. -/
def pidFileIsRunning (fuel : Nat) (pf : PIDFile) (s : Sys) :
    Except Err ((Bool × PIDFile) × Sys) :=
  match pf.fileno with
  | some fd =>
    match basePid s (some fd) with
    | .error e => .error e
    | .ok n => .ok ((pid_is_running s n, pf), s)
  | none =>
    match pidFileLock fuel pf s with
    | .error e => .error e
    | .ok ((false, pf1), s1) => .ok ((false, pf1), s1)
    | .ok ((true, pf1), s1) =>
      match basePid s1 pf1.fileno with
      | .error e => .error e
      | .ok n =>
        match pidFileUnlock pf1 s1 with
        | .error e => .error e
        | .ok (pf2, s2) => .ok ((pid_is_running s1 n, pf2), s2)

/-- `PIDFile.__enter__`: returns `(self, self.lock())`. -/
def pidFileEnter (fuel : Nat) (pf : PIDFile) (s : Sys) :
    Except Err ((Bool × PIDFile) × Sys) :=
  pidFileLock fuel pf s

/-- `PIDFile.__exit__`: unconditionally `self.unlock()`. -/
def pidFileExit (pf : PIDFile) (s : Sys) : Except Err (PIDFile × Sys) :=
  pidFileUnlock pf s

/-- `PIDLock._lock_verify(fileno)`: with the exclusive lock held, check that
(a) the path still names our inode, (b) the content does not name a running
process (short-circuit: the content is parsed only when non-empty), and
(c) the file is owned by our user — unlinking it when it is not.  Returns
`False` to make `lock` discard the descriptor and restart. -/
def lock_verify (_lk : PIDLock) (fd : Nat) (s : Sys) : Except Err (Bool × Sys) :=
  match osFstat s fd with
  | none => .error .osError
  | some fstatv =>
    match pathStat s with
    | none => .error .fileNotFoundError
    | some pstat =>
      if pstat.ino != fstatv.ino then .ok (false, s)
      else
        match osReadAll s fd with
        | none => .error .osError
        | some content =>
          if content ≠ "" then
            match int_of content with
            | none => .error .valueError
            | some n =>
              if pid_is_running s n then .ok (false, s)
              else if fstatv.uid != s.myUid then
                match pathUnlink s with
                | .error e => .error e
                | .ok s1 => .ok (false, s1)
              else .ok (true, s)
          else
            if fstatv.uid != s.myUid then
              match pathUnlink s with
              | .error e => .error e
              | .ok s1 => .ok (false, s1)
            else .ok (true, s)

/-- The success tail of `PIDLock.lock` once `_lock_verify` passed: optional
`os.fchown(fd, -1, group)`, `os.lseek(fd, 0)`, `os.truncate(fd, 0)`,
`os.write(fd, str(os.getpid()))`, then downgrade the lock to shared.  The
downgrade conversion cannot conflict: this descriptor holds the exclusive
lock, so no other descriptor holds any lock on the inode. -/
def lockFinish (lk : PIDLock) (fd : Nat) (s : Sys) : Sys :=
  let s1 := match lk.group with
    | some g => fchownGid s fd g
    | none => s
  let s2 := match fdIno s1 fd with
    | some i => setContent s1 i (toString s1.myPid)
    | none => s1
  setLock s2 fd .shared

/-- The `flock` step of one `PIDLock.lock` iteration: try the exclusive
non-blocking lock; on `BlockingIOError` either give up (`none`, the
non-blocking caller's `False`) or fall back to the blocking call. -/
def lockGrant (fd : Nat) (block : Bool) (s1 : Sys) : Except Err (Option Sys) :=
  match flockNB s1 fd .exclusive with
  | .ok s2 => .ok (some s2)
  | .error .blockingIOError =>
    if block then
      match flockBlocking s1 fd .exclusive with
      | .ok s2 => .ok (some s2)
      | .error e => .error e
    else .ok none
  | .error e => .error e

/-- The `while True:` retry loop of `PIDLock.lock` (precondition already
checked).  One iteration: open-or-create (a `PermissionError` propagates
unless `unsafe_cleanup`, in which case `_unsafe_cleanup()` runs — and that
method only raises `NotImplementedError`, so the `continue` after it is
unreachable); try the exclusive non-blocking `flock`, giving up with `False`
when non-blocking, else blocking; verify legitimacy, closing the descriptor
and restarting the loop when verification fails; finally write our PID and
downgrade. -/
def lockAttempt : Nat → PIDLock → Bool → Sys → Except Err ((Bool × PIDLock) × Sys)
  | 0, _, _, _ => .error .fuelExhausted
  | fuel + 1, lk, block, s =>
    match osOpenCreate s lk.mode with
    | .error .permissionError =>
      if lk.unsafe_cleanup then .error .notImplementedError
      else .error .permissionError
    | .error e => .error e
    | .ok (fd, s1) =>
      match lockGrant fd block s1 with
      | .error e => .error e
      | .ok none => .ok ((false, lk), osClose s1 fd)
      | .ok (some s2) =>
        match lock_verify lk fd s2 with
        | .error e => .error e
        | .ok (false, s3) => lockAttempt fuel lk block (osClose s3 fd)
        | .ok (true, s3) =>
          .ok ((true, { lk with fileno := some fd }), lockFinish lk fd s3)

/-- `PIDLock.lock(block)`: assert not already holding, then the retry
loop. -/
def pidLockLock (fuel : Nat) (lk : PIDLock) (block : Bool) (s : Sys) :
    Except Err ((Bool × PIDLock) × Sys) :=
  match lk.fileno with
  | some _ => .error .assertionError
  | none => lockAttempt fuel lk block s

/-- The optional first step of `PIDLock.unlock(block)`: with `block`, try a
non-blocking upgrade of our lock to exclusive and fall back to the blocking
call on `BlockingIOError` (waiting out any readers); without `block`, do
nothing. -/
def unlockUpgrade (fd : Nat) (block : Bool) (s : Sys) : Except Err Sys :=
  if block then
    match flockNB s fd .exclusive with
    | .ok s1 => .ok s1
    | .error .blockingIOError => flockBlocking s fd .exclusive
    | .error e => .error e
  else .ok s

/-- `PIDLock.unlock(block)`: assert holding; with `block`, upgrade to an
exclusive lock (waiting out readers); unlink the path, swallowing
`FileNotFoundError`; only then close the descriptor. -/
def pidLockUnlock (lk : PIDLock) (block : Bool) (s : Sys) :
    Except Err (PIDLock × Sys) :=
  match lk.fileno with
  | none => .error .assertionError
  | some fd =>
    match unlockUpgrade fd block s with
    | .error e => .error e
    | .ok s1 =>
      let s2 := match pathUnlink s1 with
        | .ok s2 => s2
        | .error _ => { s1 with trace := s1.trace ++ [Event.unlinkMissing] }
      .ok ({ lk with fileno := none }, osClose s2 fd)

/-- The role object yielded by `utils.opportunistic_lock`. -/
inductive Role where
  | lockRole (lk : PIDLock)
  | fileRole (pf : PIDFile)
  deriving DecidableEq, Repr

/-- `utils.opportunistic_lock`: loop — try the non-blocking exclusive lock
and yield it on success; otherwise enter `with pidfile` (`__enter__` locks),
yield the observer when `pidfile.is_running`, else leave the context
(`__exit__` unlocks unconditionally) and retry.  The value is the object the
generator yields; the `finally`/post-`yield` release runs after the
caller's block and is modelled by the separate unlock functions. -/
def opportunistic_lock : Nat → PIDLock → PIDFile → Sys → Except Err (Role × Sys)
  | 0, _, _, _ => .error .fuelExhausted
  | fuel + 1, lk, pf, s =>
    match pidLockLock (fuel + 1) lk false s with
    | .error e => .error e
    | .ok ((true, lk1), s1) => .ok (.lockRole lk1, s1)
    | .ok ((false, lk1), s1) =>
      match pidFileEnter (fuel + 1) pf s1 with
      | .error e => .error e
      | .ok ((_, pf1), s2) =>
        match pidFileIsRunning (fuel + 1) pf1 s2 with
        | .error e => .error e
        | .ok ((true, pf2), s3) => .ok (.fileRole pf2, s3)
        | .ok ((false, pf2), s3) =>
          match pidFileExit pf2 s3 with
          | .error e => .error e
          | .ok (pf3, s4) => opportunistic_lock fuel lk1 pf3 s4

/-! ## Concrete states and scenario runs -/

/-- A clean environment: the lock path does not exist, no descriptor is
open, no advisory lock is held, no other process is running.  Our process is
PID 42, UID 7, primary GID 5. -/
def cleanSys : Sys :=
  { pathIno := none, inodes := [], fds := [], locks := [], nextIno := 0,
    nextFd := 0, running := [], myPid := 42, myUid := 7, myGid := 5,
    trace := [] }

/-- A `PIDLock` handle fresh out of `__init__` with default arguments. -/
def lk0 : PIDLock :=
  { mode := DEFAULT_LOCK_MODE, group := none, unsafe_cleanup := false,
    fileno := none }

/-- A `PIDFile` handle fresh out of `__init__`. -/
def pf0 : PIDFile := { fileno := none }

/-- The spec's concrete two-handle scenario, run in the model:
`lock1.lock(block=False)`, `lock2.lock(block=False)`, `lock1.unlock()`,
`lock2.lock(block=False)`, `lock1.lock(block=False)`, `lock2.unlock()`;
the value is the four booleans and the final state of the path. -/
def c2_exec : Except Err ((Bool × Bool × Bool × Bool) × Option Nat) := do
  let ((b1, lk1a), s1) ← pidLockLock 3 lk0 false cleanSys
  let ((b2, _), s2) ← pidLockLock 3 lk0 false s1
  let (lk1b, s3) ← pidLockUnlock lk1a false s2
  let ((b3, lk2b), s4) ← pidLockLock 3 lk0 false s3
  let ((b4, _), s5) ← pidLockLock 3 lk1b false s4
  let (_, s6) ← pidLockUnlock lk2b false s5
  pure ((b1, b2, b3, b4), s6.pathIno)

/-- A state whose lock file exists with zero-length content (just created or
truncated, PID not yet written) and no lock held on it. -/
def emptyFileSys : Sys :=
  { pathIno := some 0,
    inodes := [⟨0, 7, 5, DEFAULT_LOCK_MODE, ""⟩],
    fds := [], locks := [], nextIno := 1, nextFd := 1, running := [],
    myPid := 42, myUid := 7, myGid := 5, trace := [] }

/-- A state whose lock file is owned by another user (UID 99) with mode
0o644: our UID 7 has no write permission, so `os.open(..., O_RDWR | O_CREAT)`
raises `PermissionError`. -/
def foreignFileSys : Sys :=
  { pathIno := some 0,
    inodes := [⟨0, 99, 5, 420, "99"⟩],
    fds := [], locks := [], nextIno := 1, nextFd := 1, running := [99],
    myPid := 42, myUid := 7, myGid := 5, trace := [] }

/-! ## Claim theorems -/

/-- Helper: with the path absent, `PIDFile.lock` returns `False` leaving
handle and state untouched. -/
theorem pidFileLock_missing (s : Sys) (pf : PIDFile) (fuel : Nat)
    (hpath : s.pathIno = none) (hpf : pf.fileno = none) :
    pidFileLock (fuel + 1) pf s = .ok ((false, pf), s) := by
  have hloop : fileLockLoop (fuel + 1) s = .ok (none, s) := by
    simp [fileLockLoop, osOpenRead, hpath]
  simp [pidFileLock, hpf, hloop]

/-- **C1, counterexample.**  The claim says reading the PID of a zero-length
file "never yields PID 0 and does not fail".  In the code `int(b"")` raises
`ValueError`: on a concrete state whose lock file exists with empty content,
`PIDFile.pid` fails with `ValueError` instead of reporting an unknown
owner. -/
theorem c1_empty_pid_raises :
    pidFilePid 3 pf0 emptyFileSys = .error Err.valueError := by
  rfl

/-- **C1, amended.**  Zero-length content is never parsed as PID 0 — but not
by design: for any state and any handle whose descriptor reads empty
content, both `PIDBase.pid` and `PIDFile.pid` raise `ValueError` (the read
fails) rather than yielding any PID. -/
theorem c1_empty_pid_never_zero (s : Sys) (pf : PIDFile) (fd : Nat)
    (fuel : Nat) (hfd : pf.fileno = some fd)
    (hc : osReadAll s fd = some "") :
    basePid s (some fd) = .error Err.valueError ∧
      pidFilePid fuel pf s = .error Err.valueError := by
  have hnat : int_of "" = none := rfl
  have hbase : basePid s (some fd) = .error Err.valueError := by
    simp [basePid, hc, hnat]
  refine ⟨hbase, ?_⟩
  simp [pidFilePid, hfd, hbase]

/-- `emptyFileSys` with the empty file already shared-locked through
descriptor 0 (a `PIDFile` that holds the read lock). -/
def emptyFileLockedSys : Sys :=
  { emptyFileSys with fds := [⟨0, 0⟩], locks := [(0, LockKind.shared)] }

/-- **C1, witness** for the amended theorem at a concrete input. -/
theorem c1_empty_pid_never_zero_witness :
    basePid emptyFileLockedSys (some 0) = .error Err.valueError ∧
      pidFilePid 3 { fileno := some 0 } emptyFileLockedSys = .error Err.valueError :=
  c1_empty_pid_never_zero emptyFileLockedSys { fileno := some 0 } 0 3 rfl rfl

/-- **C2.**  The spec's concrete scenario: two in-process handles on the same
fresh path give `True, False, -, True, False, -` for
`lock1.lock(block=False)`, `lock2.lock(block=False)`, `lock1.unlock()`,
`lock2.lock(block=False)`, `lock1.lock(block=False)`, `lock2.unlock()`, and
after the final unlock the path does not exist. -/
theorem c2_two_handles :
    c2_exec = .ok ((true, false, true, false), none) := by
  rfl

/-- **C7.**  When the lock file does not exist the observer reports "not
held" without error: `PIDFile.lock()` returns `False`, `PIDFile.pid` returns
the sentinel `-1`, and `PIDFile.is_running` returns `False` — all leaving
handle and state untouched. -/
theorem c7_missing_file_observer (s : Sys) (pf : PIDFile) (fuel : Nat)
    (hpath : s.pathIno = none) (hpf : pf.fileno = none) :
    pidFileLock (fuel + 1) pf s = .ok ((false, pf), s) ∧
      pidFilePid (fuel + 1) pf s = .ok ((-1, pf), s) ∧
      pidFileIsRunning (fuel + 1) pf s = .ok ((false, pf), s) := by
  have hlock := pidFileLock_missing s pf fuel hpath hpf
  exact ⟨hlock, by simp [pidFilePid, hpf, hlock], by simp [pidFileIsRunning, hpf, hlock]⟩

/-- **C7, witness** at a concrete input. -/
theorem c7_missing_file_observer_witness :
    pidFileLock 3 pf0 cleanSys = .ok ((false, pf0), cleanSys) ∧
      pidFilePid 3 pf0 cleanSys = .ok ((-1, pf0), cleanSys) ∧
      pidFileIsRunning 3 pf0 cleanSys = .ok ((false, pf0), cleanSys) :=
  c7_missing_file_observer cleanSys pf0 2 rfl rfl

/-- **C10.**  `PIDFile.__enter__` on an absent file returns `(self, False)`
with no descriptor recorded, and the unconditional `unlock` in
`PIDFile.__exit__` then fails its precondition assertion: leaving the
context after a failed lock raises `AssertionError` instead of being a
no-op. -/
theorem c10_exit_after_failed_lock (s : Sys) (pf : PIDFile) (fuel : Nat)
    (hpath : s.pathIno = none) (hpf : pf.fileno = none) :
    pidFileEnter (fuel + 1) pf s = .ok ((false, pf), s) ∧
      pidFileExit pf s = .error Err.assertionError := by
  refine ⟨pidFileLock_missing s pf fuel hpath hpf, ?_⟩
  simp [pidFileExit, pidFileUnlock, hpf]

/-- **C10, witness** at a concrete input. -/
theorem c10_exit_after_failed_lock_witness :
    pidFileEnter 3 pf0 cleanSys = .ok ((false, pf0), cleanSys) ∧
      pidFileExit pf0 cleanSys = .error Err.assertionError :=
  c10_exit_after_failed_lock cleanSys pf0 2 rfl rfl

/-- Helper: a granted non-blocking `flock` touches only the lock table. -/
theorem flockNB_ok {s : Sys} {fd : Nat} {k : LockKind} {s1 : Sys}
    (h : flockNB s fd k = .ok s1) :
    s1.trace = s.trace ∧ s1.pathIno = s.pathIno := by
  cases hfi : fdIno s fd with
  | none => simp [flockNB, hfi] at h
  | some i =>
    simp only [flockNB, hfi] at h
    split at h
    · exact absurd h (by simp)
    · cases h; exact ⟨rfl, rfl⟩

/-- Helper: a granted blocking `flock` touches only the lock table. -/
theorem flockBlocking_ok {s : Sys} {fd : Nat} {k : LockKind} {s1 : Sys}
    (h : flockBlocking s fd k = .ok s1) :
    s1.trace = s.trace ∧ s1.pathIno = s.pathIno := by
  cases hfi : fdIno s fd with
  | none => simp [flockBlocking, hfi] at h
  | some i =>
    simp only [flockBlocking, hfi] at h
    split at h
    · exact absurd h (by simp)
    · cases h; exact ⟨rfl, rfl⟩

/-- Helper: the upgrade step of `unlock` touches only the lock table. -/
theorem unlockUpgrade_ok {fd : Nat} {block : Bool} {s s1 : Sys}
    (h : unlockUpgrade fd block s = .ok s1) :
    s1.trace = s.trace ∧ s1.pathIno = s.pathIno := by
  simp only [unlockUpgrade] at h
  by_cases hb : block
  · rw [hb] at h
    simp only [if_true] at h
    split at h
    · rename_i s2 hnb
      cases h; exact flockNB_ok hnb
    · exact flockBlocking_ok h
    · exact absurd h (by simp)
  · rw [eq_false_of_ne_true hb] at h
    simp only [Bool.false_eq_true, if_false] at h
    cases h; exact ⟨rfl, rfl⟩

/-- **C5.**  Release unlinks the path strictly before closing the
descriptor: whenever `PIDLock.unlock` completes, the event trace extends by
the unlink event (or the tolerated `FileNotFoundError` when the file is
already absent) followed — strictly later — by the close of the held
descriptor.  And with the default `block=False` the release always completes,
file present or not. -/
theorem c5_unlink_before_close (lk : PIDLock) (fd : Nat) (block : Bool)
    (s : Sys) (hfd : lk.fileno = some fd) :
    (∀ lk' s', pidLockUnlock lk block s = .ok (lk', s') →
        (s.pathIno ≠ none →
          s'.trace = s.trace ++ [Event.unlinked, Event.closedE fd]) ∧
        (s.pathIno = none →
          s'.trace = s.trace ++ [Event.unlinkMissing, Event.closedE fd])) ∧
      ∃ r, pidLockUnlock lk false s = .ok r := by
  constructor
  · intro lk' s' h
    simp only [pidLockUnlock, hfd] at h
    cases hup : unlockUpgrade fd block s with
    | error e => rw [hup] at h; exact absurd h (by simp)
    | ok s1 =>
      rw [hup] at h
      obtain ⟨htr, hpi⟩ := unlockUpgrade_ok hup
      simp only [Except.ok.injEq, Prod.mk.injEq] at h
      obtain ⟨-, hs'⟩ := h
      subst hs'
      constructor
      · intro hsome
        cases hp : s.pathIno with
        | none => exact absurd hp hsome
        | some i => simp [pathUnlink, hpi, hp, osClose, htr]
      · intro hnone
        simp [pathUnlink, hpi, hnone, osClose, htr]
  · cases hp : s.pathIno with
    | some i =>
      refine ⟨({ lk with fileno := none },
        osClose { s with pathIno := none,
                         trace := s.trace ++ [Event.unlinked] } fd), ?_⟩
      simp [pidLockUnlock, hfd, unlockUpgrade, pathUnlink, hp]
    | none =>
      refine ⟨({ lk with fileno := none },
        osClose { s with trace := s.trace ++ [Event.unlinkMissing] } fd), ?_⟩
      simp [pidLockUnlock, hfd, unlockUpgrade, pathUnlink, hp]

/-- **C5, witness** at a concrete input: a handle holding descriptor 0 on
the empty locked file. -/
theorem c5_unlink_before_close_witness :
    ((∀ lk' s',
        pidLockUnlock { lk0 with fileno := some 0 } false emptyFileLockedSys =
          .ok (lk', s') →
        (emptyFileLockedSys.pathIno ≠ none →
          s'.trace = emptyFileLockedSys.trace ++
            [Event.unlinked, Event.closedE 0]) ∧
        (emptyFileLockedSys.pathIno = none →
          s'.trace = emptyFileLockedSys.trace ++
            [Event.unlinkMissing, Event.closedE 0])) ∧
      ∃ r, pidLockUnlock { lk0 with fileno := some 0 } false emptyFileLockedSys
            = .ok r) :=
  c5_unlink_before_close { lk0 with fileno := some 0 } 0 false
    emptyFileLockedSys rfl

/-- **C6, counterexample.**  The claim says that with `unsafe_cleanup`
enabled a denied creation is "forcibly cleared and the acquisition loop
retries".  In the code `_unsafe_cleanup` only raises `NotImplementedError`:
on a file owned by UID 99 with mode 0o644 (we are UID 7, no write
permission), `lock` with `unsafe_cleanup=True` raises `NotImplementedError`
instead of clearing and retrying. -/
theorem c6_cleanup_counterexample :
    pidLockLock 5 { lk0 with unsafe_cleanup := true } true foreignFileSys =
      .error Err.notImplementedError := by
  rfl

/-- **C6, amended.**  When open-or-create raises `PermissionError`: with
`unsafe_cleanup` disabled the `PermissionError` propagates to the caller
(fatal, not retried); with it enabled the recovery hook `_unsafe_cleanup` is
invoked, which is unimplemented and raises `NotImplementedError` — the loop
does not retry. -/
theorem c6_permission_denied (fuel : Nat) (lk : PIDLock) (block : Bool)
    (s : Sys) (i : Nat) (ind : Inode) (hlk : lk.fileno = none)
    (hpath : s.pathIno = some i) (hind : findInode s i = some ind)
    (hperm : canWrite ind s.myUid = false) :
    pidLockLock (fuel + 1) lk block s =
      .error (if lk.unsafe_cleanup then Err.notImplementedError
              else Err.permissionError) := by
  have hopen : osOpenCreate s lk.mode = .error Err.permissionError := by
    simp [osOpenCreate, hpath, hind, hperm]
  rw [pidLockLock, hlk, lockAttempt, hopen]
  by_cases hu : lk.unsafe_cleanup <;> simp [hu]

/-- **C6, witness** at a concrete input (cleanup disabled: the
`PermissionError` propagates). -/
theorem c6_permission_denied_witness :
    pidLockLock 3 lk0 true foreignFileSys = .error Err.permissionError :=
  c6_permission_denied 2 lk0 true foreignFileSys 0 ⟨0, 99, 5, 420, "99"⟩
    rfl rfl rfl rfl

/-- A state for exercising `_lock_verify`'s inode check: descriptor 0 holds
the exclusive lock on inode 1, but the path now names inode 0. -/
def mismatchSys : Sys :=
  { pathIno := some 0,
    inodes := [⟨0, 7, 5, DEFAULT_LOCK_MODE, ""⟩, ⟨1, 7, 5, DEFAULT_LOCK_MODE, ""⟩],
    fds := [⟨0, 1⟩], locks := [(0, LockKind.exclusive)], nextIno := 2,
    nextFd := 1, running := [], myPid := 42, myUid := 7, myGid := 5,
    trace := [] }

/-- A state for exercising `_lock_verify`'s success path: descriptor 0 holds
the exclusive lock on the path's inode, whose content names the
no-longer-running PID 99, and the file is ours. -/
def staleOursSys : Sys :=
  { pathIno := some 0,
    inodes := [⟨0, 7, 5, DEFAULT_LOCK_MODE, "99"⟩],
    fds := [⟨0, 0⟩], locks := [(0, LockKind.exclusive)], nextIno := 1,
    nextFd := 1, running := [], myPid := 42, myUid := 7, myGid := 5,
    trace := [] }

/-- **C4.**  After the exclusive lock is obtained, `_lock_verify` performs
exactly the three legitimacy checks, in order: (a) an inode mismatch between
the descriptor and a fresh stat of the path reports failure with the state
untouched (the caller closes the descriptor and restarts); (b) with matching
inodes, a non-empty content naming a running PID reports failure with the
state untouched; (c) with those passed, a foreign owning UID unlinks the
file and reports failure; only when all three pass does it report success
(again with the state untouched), letting the acquisition complete. -/
theorem c4_verify_three_checks (lk : PIDLock) (fd : Nat) (s : Sys)
    (find pind : Inode) (hfs : osFstat s fd = some find)
    (hps : pathStat s = some pind) :
    (pind.ino ≠ find.ino → lock_verify lk fd s = .ok (false, s)) ∧
    (∀ n, pind.ino = find.ino → int_of find.content = some n →
      pid_is_running s n = true →
      lock_verify lk fd s = .ok (false, s)) ∧
    (pind.ino = find.ino →
      (find.content = "" ∨
        ∃ n, int_of find.content = some n ∧ pid_is_running s n = false) →
      find.uid ≠ s.myUid →
      lock_verify lk fd s =
        .ok (false, { s with pathIno := none,
                             trace := s.trace ++ [Event.unlinked] })) ∧
    (pind.ino = find.ino →
      (find.content = "" ∨
        ∃ n, int_of find.content = some n ∧ pid_is_running s n = false) →
      find.uid = s.myUid →
      lock_verify lk fd s = .ok (true, s)) := by
  have hread : osReadAll s fd = some find.content := by
    simp [osReadAll, hfs]
  obtain ⟨i, hpi⟩ : ∃ i, s.pathIno = some i := by
    cases hp : s.pathIno with
    | none => rw [pathStat, hp] at hps; exact absurd hps (by simp)
    | some i => exact ⟨i, rfl⟩
  have hunlink : pathUnlink s =
      .ok { s with pathIno := none, trace := s.trace ++ [Event.unlinked] } := by
    simp [pathUnlink, hpi]
  refine ⟨?_, ?_, ?_, ?_⟩
  · intro hne
    simp [lock_verify, hfs, hps, hread, bne_iff_ne, hne]
  · intro n heq hn hrun
    have hne : find.content ≠ "" := by
      intro hc
      rw [hc, show int_of "" = none from rfl] at hn
      exact Option.noConfusion hn
    simp [lock_verify, hfs, hps, hread, heq, hne, hn, hrun]
  · intro heq hdead hne
    rcases hdead with hc | ⟨n, hn, hrun⟩
    · simp [lock_verify, hfs, hps, hread, heq, hc, bne_iff_ne, hne, hunlink]
    · have hcne : find.content ≠ "" := by
        intro hcc
        rw [hcc, show int_of "" = none from rfl] at hn
        exact Option.noConfusion hn
      simp [lock_verify, hfs, hps, hread, heq, hcne, hn, hrun, bne_iff_ne, hne,
        hunlink]
  · intro heq hdead huid
    rcases hdead with hc | ⟨n, hn, hrun⟩
    · simp [lock_verify, hfs, hps, hread, heq, hc, huid]
    · have hcne : find.content ≠ "" := by
        intro hcc
        rw [hcc, show int_of "" = none from rfl] at hn
        exact Option.noConfusion hn
      simp [lock_verify, hfs, hps, hread, heq, hcne, hn, hrun, huid]

/-- **C4, witness**: the inode-mismatch check fires on `mismatchSys`; all
three checks pass on `staleOursSys` (stale content of a dead process on a
file we own). -/
theorem c4_verify_three_checks_witness :
    lock_verify lk0 0 mismatchSys = .ok (false, mismatchSys) ∧
      lock_verify lk0 0 staleOursSys = .ok (true, staleOursSys) :=
  ⟨(c4_verify_three_checks lk0 0 mismatchSys ⟨1, 7, 5, 436, ""⟩
      ⟨0, 7, 5, 436, ""⟩ rfl rfl).1 (by decide),
   (c4_verify_three_checks lk0 0 staleOursSys ⟨0, 7, 5, 436, "99"⟩
      ⟨0, 7, 5, 436, "99"⟩ rfl rfl).2.2.2 rfl
      (Or.inr ⟨99, by decide, by decide⟩) rfl⟩

/-- Helper: with `block=True` the grant step never reports "give up". -/
theorem lockGrant_block_true (fd : Nat) (s1 : Sys) :
    lockGrant fd true s1 ≠ .ok none := by
  intro h
  simp only [lockGrant] at h
  split at h
  · exact absurd h (by simp)
  · simp only [if_true] at h
    split at h
    · exact absurd h (by simp)
    · exact absurd h (by simp)
  · exact absurd h (by simp)

/-- Helper: the retry loop of `PIDLock.lock` with `block=True` only ever
returns `True`. -/
theorem lockAttempt_block_true :
    ∀ (fuel : Nat) (lk : PIDLock) (s : Sys) (r : (Bool × PIDLock) × Sys),
      lockAttempt fuel lk true s = .ok r → r.1.1 = true := by
  intro fuel
  induction fuel with
  | zero => intro lk s r h; exact absurd h (by simp [lockAttempt])
  | succ n ih =>
    intro lk s r h
    simp only [lockAttempt] at h
    split at h
    · split at h <;> exact absurd h (by simp)
    · exact absurd h (by simp)
    · split at h
      · exact absurd h (by simp)
      · rename_i hg
        exact absurd hg (lockGrant_block_true _ _)
      · split at h
        · exact absurd h (by simp)
        · exact ih lk _ r h
        · cases h; rfl

/-- A state whose lock file is ours, unlocked and writable but holds the
non-numeric content `"x"`: `_lock_verify`'s `int(content)` raises
`ValueError`, which propagates out of a blocking `lock()`. -/
def junkSys : Sys :=
  { pathIno := some 0,
    inodes := [⟨0, 7, 5, DEFAULT_LOCK_MODE, "x"⟩],
    fds := [], locks := [], nextIno := 1, nextFd := 1, running := [],
    myPid := 42, myUid := 7, myGid := 5, trace := [] }

/-- **C3, counterexample.**  The claim says only the fatal error classes
(precondition violation, propagated permission error) can prevent a `True`
result of a blocking `lock()`.  On a file we own, with no lock held, whose
content is the non-numeric `"x"`, the blocking call fails with `ValueError`
instead — a further error class. -/
theorem c3_junk_content_counterexample :
    pidLockLock 3 lk0 true junkSys = .error Err.valueError := by
  rfl

/-- **C3, amended.**  A blocking acquire never reports "not acquired":
whenever `PIDLock.lock(block=True)` returns, the returned boolean is `True`;
a `True` result can be prevented only by a raised error — besides the
precondition violation and the propagated permission error, also
`ValueError` from parsing non-numeric lock-file content during verification
and `NotImplementedError` from the unimplemented `unsafe_cleanup`
recovery. -/
theorem c3_blocking_lock_returns_true :
    (∀ (fuel : Nat) (lk : PIDLock) (s : Sys) (r : (Bool × PIDLock) × Sys),
      pidLockLock fuel lk true s = .ok r → r.1.1 = true) ∧
    pidLockLock 3 lk0 true junkSys = .error Err.valueError ∧
    pidLockLock 3 { lk0 with unsafe_cleanup := true } true foreignFileSys =
      .error Err.notImplementedError := by
  refine ⟨?_, rfl, rfl⟩
  intro fuel lk s r h
  rw [pidLockLock] at h
  cases hf : lk.fileno with
  | some fd => rw [hf] at h; exact absurd h (by simp)
  | none => rw [hf] at h; exact lockAttempt_block_true fuel lk s r h

/-- **C3, witness**: a blocking acquire on the clean state returns and the
returned boolean is `True`. -/
theorem c3_blocking_lock_returns_true_witness :
    ∃ r, pidLockLock 1 lk0 true cleanSys = .ok r ∧ r.1.1 = true :=
  ⟨_, rfl, c3_blocking_lock_returns_true.1 1 lk0 cleanSys _ rfl⟩

/-- A clean environment parametric in the set of other running processes and
our own PID: path absent, nothing open, nothing locked. -/
def cleanEnv (R : List Nat) (p : Nat) : Sys :=
  { pathIno := none, inodes := [], fds := [], locks := [], nextIno := 0,
    nextFd := 0, running := R, myPid := p, myUid := 7, myGid := 5,
    trace := [] }

/-- **C8.**  Round-trip in a clean environment: for every `PIDLock` handle
(any mode, group and `unsafe_cleanup` setting), any own PID and any set of
other running processes, `lock()` succeeds and the following `unlock()`
returns the filesystem to the initial "absent" state: the path does not
exist, no descriptor is open and no lock is held. -/
theorem c8_roundtrip_clean (mode : Nat) (grp : Option Nat) (uc : Bool)
    (R : List Nat) (p : Nat) :
    ∃ lk1 s1,
      pidLockLock 1 ⟨mode, grp, uc, none⟩ true (cleanEnv R p) =
        .ok ((true, lk1), s1) ∧
      ∃ lk2 s2, pidLockUnlock lk1 false s1 = .ok (lk2, s2) ∧
        s2.pathIno = none ∧ s2.fds = [] ∧ s2.locks = [] ∧
        lk2.fileno = none := by
  cases grp with
  | none => exact ⟨_, _, rfl, _, _, rfl, rfl, rfl, rfl, rfl⟩
  | some gg => exact ⟨_, _, rfl, _, _, rfl, rfl, rfl, rfl, rfl⟩

/-- Helper: the retry loop of `PIDLock.lock` returns `False` only with the
handle untouched, and `True` only with a descriptor recorded. -/
theorem lockAttempt_handle :
    ∀ (fuel : Nat) (lk : PIDLock) (block : Bool) (s : Sys) (b : Bool)
      (lk' : PIDLock) (s' : Sys),
      lockAttempt fuel lk block s = .ok ((b, lk'), s') →
      (b = false ∧ lk' = lk) ∨ (b = true ∧ ∃ fd, lk'.fileno = some fd) := by
  intro fuel
  induction fuel with
  | zero => intro lk block s b lk' s' h; exact absurd h (by simp [lockAttempt])
  | succ n ih =>
    intro lk block s b lk' s' h
    simp only [lockAttempt] at h
    split at h
    · split at h <;> exact absurd h (by simp)
    · exact absurd h (by simp)
    · split at h
      · exact absurd h (by simp)
      · cases h; exact Or.inl ⟨rfl, rfl⟩
      · split at h
        · exact absurd h (by simp)
        · exact ih lk block _ b lk' s' h
        · cases h; exact Or.inr ⟨rfl, _, rfl⟩

/-- Helper: same statement for `PIDLock.lock` itself. -/
theorem pidLockLock_handle (fuel : Nat) (lk : PIDLock) (block : Bool)
    (s : Sys) (b : Bool) (lk' : PIDLock) (s' : Sys)
    (h : pidLockLock fuel lk block s = .ok ((b, lk'), s')) :
    (b = false ∧ lk' = lk) ∨ (b = true ∧ ∃ fd, lk'.fileno = some fd) := by
  rw [pidLockLock] at h
  cases hf : lk.fileno with
  | some fd => rw [hf] at h; exact absurd h (by simp)
  | none => rw [hf] at h; exact lockAttempt_handle fuel lk block s b lk' s' h

/-- Helper: `os.open(path, O_RDONLY)` raises `FileNotFoundError` only when
the path is absent. -/
theorem osOpenRead_fnf {s : Sys}
    (h : osOpenRead s = .error Err.fileNotFoundError) : s.pathIno = none := by
  cases hp : s.pathIno with
  | none => rfl
  | some i =>
    simp only [osOpenRead, hp] at h
    cases hi : findInode s i with
    | none => simp [hi] at h
    | some ind =>
      simp only [hi] at h
      split at h <;> exact absurd h (by simp)

/-- Helper: the `PIDFile.lock` retry loop reports "no file" only in a state
where the path is absent. -/
theorem fileLockLoop_none_path :
    ∀ (fuel : Nat) (s s' : Sys), fileLockLoop fuel s = .ok (none, s') →
      s'.pathIno = none := by
  intro fuel
  induction fuel with
  | zero => intro s s' h; exact absurd h (by simp [fileLockLoop])
  | succ n ih =>
    intro s s' h
    simp only [fileLockLoop] at h
    split at h
    · rename_i hor
      cases h
      exact osOpenRead_fnf hor
    · exact absurd h (by simp)
    · split at h
      · exact absurd h (by simp)
      · split at h
        · exact absurd h (by simp)
        · split at h
          · exact absurd h (by simp)
          · split at h
            · exact ih _ s' h
            · exact absurd h (by simp)

/-- Helper: with the path absent the `PIDFile.lock` retry loop immediately
reports "no file", leaving the state untouched. -/
theorem fileLockLoop_quick_none {s : Sys} (fuel : Nat)
    (hp : s.pathIno = none) : fileLockLoop (fuel + 1) s = .ok (none, s) := by
  simp [fileLockLoop, osOpenRead, hp]

/-- Helper: shapes of a normal `PIDFile.lock` return. -/
theorem pidFileLock_cases (fuel : Nat) (pf : PIDFile) (s : Sys) (b : Bool)
    (pf' : PIDFile) (s' : Sys)
    (h : pidFileLock fuel pf s = .ok ((b, pf'), s')) :
    (b = true ∧ ∃ fd, pf'.fileno = some fd) ∨
      (b = false ∧ pf' = pf ∧ fileLockLoop fuel s = .ok (none, s')) := by
  rw [pidFileLock] at h
  cases hf : pf.fileno with
  | some fd => rw [hf] at h; exact absurd h (by simp)
  | none =>
    rw [hf] at h
    cases hl : fileLockLoop fuel s with
    | error e => rw [hl] at h; exact absurd h (by simp)
    | ok p =>
      obtain ⟨ofd, s1⟩ := p
      rw [hl] at h
      cases ofd with
      | none =>
        simp only [Except.ok.injEq, Prod.mk.injEq] at h
        obtain ⟨⟨hb, hpf⟩, hs⟩ := h
        exact Or.inr ⟨hb.symm, hpf.symm, by rw [hs]⟩
      | some fd => cases h; exact Or.inl ⟨rfl, _, rfl⟩

/-- Helper: a normal `PIDFile.unlock` return always clears the handle. -/
theorem pidFileUnlock_ok (pf : PIDFile) (s : Sys) (pf' : PIDFile) (s' : Sys)
    (h : pidFileUnlock pf s = .ok (pf', s')) : pf'.fileno = none := by
  rw [pidFileUnlock] at h
  cases hf : pf.fileno with
  | none => rw [hf] at h; exact absurd h (by simp)
  | some fd => rw [hf] at h; cases h; rfl

/-- The stale-observation state guarding `opportunistic_lock`'s only
remaining race: the lock file names the dead PID 99 and an outside
descriptor (number 9) still holds a shared lock on it, so the non-blocking
exclusive attempt fails while the observer reads a non-running PID.
Parametric in the inode counter, the next descriptor number (≥ 10), our
primary group and the trace. -/
def mkStale (ni F g : Nat) (t : List Event) : Sys :=
  { pathIno := some 0,
    inodes := [⟨0, 7, 5, DEFAULT_LOCK_MODE, "99"⟩],
    fds := [⟨9, 0⟩], locks := [(9, LockKind.shared)], nextIno := ni,
    nextFd := F, running := [], myPid := 42, myUid := 7, myGid := g,
    trace := t }

/-- `mkStale` mid-iteration: the observer's descriptor `F + 1` holds an
additional shared lock. -/
def staleMid (ni F g : Nat) (t : List Event) : Sys :=
  { pathIno := some 0,
    inodes := [⟨0, 7, 5, DEFAULT_LOCK_MODE, "99"⟩],
    fds := [⟨F + 1, 0⟩, ⟨9, 0⟩],
    locks := [(F + 1, LockKind.shared), (9, LockKind.shared)], nextIno := ni,
    nextFd := F + 2, running := [], myPid := 42, myUid := 7, myGid := g,
    trace := t }

/-- Helper: one iteration of `opportunistic_lock` on the stale-observation
state — failed exclusive attempt, observer sees the dead PID 99, context
left — retries, returning to the stale shape. -/
theorem stale_step (fuel : Nat) (lk : PIDLock) (pf : PIDFile)
    (hlk : lk.fileno = none) (hpf : pf.fileno = none)
    (ni F g : Nat) (t : List Event) (hF : 10 ≤ F) :
    opportunistic_lock (fuel + 1) lk pf (mkStale ni F g t) =
      opportunistic_lock fuel lk { fileno := none }
        (mkStale ni (F + 2) g
          (t ++ [Event.closedE F, Event.closedE (F + 1)])) := by
  have h9F : ((9 : Nat) == F) = false := by simp; omega
  have hF9 : ((F : Nat) == 9) = false := by simp; omega
  have h9F1 : ((9 : Nat) == F + 1) = false := by simp; omega
  have hF19 : ((F + 1 : Nat) == 9) = false := by simp; omega
  have hlock : pidLockLock (fuel + 1) lk false (mkStale ni F g t) =
      .ok ((false, lk), mkStale ni (F + 1) g (t ++ [Event.closedE F])) := by
    simp [pidLockLock, hlk, lockAttempt, osOpenCreate, mkStale, findInode,
      canWrite, lockGrant, flockNB, fdIno, lockConflict, setLock, osClose,
      List.find?, List.filter, List.any, bne, h9F, hF9, DEFAULT_LOCK_MODE]
  have henter : pidFileEnter (fuel + 1) pf
        (mkStale ni (F + 1) g (t ++ [Event.closedE F])) =
      .ok ((true, { fileno := some (F + 1) }),
        staleMid ni F g (t ++ [Event.closedE F])) := by
    simp [pidFileEnter, pidFileLock, hpf, fileLockLoop, osOpenRead, mkStale,
      staleMid, findInode, canRead, flockBlocking, fdIno, lockConflict,
      setLock, pathStat, osFstat, List.find?, List.filter, List.any, bne,
      h9F1, hF19, DEFAULT_LOCK_MODE]
  have hrun : pidFileIsRunning (fuel + 1) { fileno := some (F + 1) }
        (staleMid ni F g (t ++ [Event.closedE F])) =
      .ok ((false, { fileno := some (F + 1) }),
        staleMid ni F g (t ++ [Event.closedE F])) := by
    simp [pidFileIsRunning, basePid, osReadAll, osFstat, fdIno, staleMid,
      findInode, List.find?, pid_is_running, int_of, parseDecCore, digit?,
      DEFAULT_LOCK_MODE]
  have hexit : pidFileExit { fileno := some (F + 1) }
        (staleMid ni F g (t ++ [Event.closedE F])) =
      .ok ({ fileno := none },
        mkStale ni (F + 2) g
          ((t ++ [Event.closedE F]) ++ [Event.closedE (F + 1)])) := by
    simp [pidFileExit, pidFileUnlock, osClose, staleMid, mkStale, List.filter,
      bne, h9F1, DEFAULT_LOCK_MODE]
  simp only [opportunistic_lock, hlock, henter, hrun, hexit,
    List.append_assoc, List.cons_append, List.nil_append, List.singleton_append]

/-- Helper: on the stale-observation state `opportunistic_lock` retries
forever — it never yields the stale observation (every fuel budget is
exhausted still looping). -/
theorem stale_never_yields :
    ∀ (fuel : Nat) (lk : PIDLock) (pf : PIDFile) (ni F g : Nat)
      (t : List Event), 10 ≤ F → lk.fileno = none → pf.fileno = none →
      opportunistic_lock fuel lk pf (mkStale ni F g t) =
        .error Err.fuelExhausted := by
  intro fuel
  induction fuel with
  | zero => intro lk pf ni F g t _ _ _; rfl
  | succ n ih =>
    intro lk pf ni F g t hF hlk hpf
    rw [stale_step n lk pf hlk hpf ni F g t hF]
    exact ih lk { fileno := none } ni (F + 2) g _ (by omega) hlk rfl

/-- Helper: whenever `opportunistic_lock` yields, the yielded role object is
either a freshly acquired exclusive lock (descriptor recorded) or an
observer locked onto a file whose PID is running at the yield. -/
theorem oppo_yield_roles :
    ∀ (fuel : Nat) (lk : PIDLock) (pf : PIDFile) (s : Sys) (r : Role)
      (s' : Sys), lk.fileno = none → pf.fileno = none →
      opportunistic_lock fuel lk pf s = .ok (r, s') →
      (∃ lk', r = Role.lockRole lk' ∧ ∃ fd, lk'.fileno = some fd) ∨
        (∃ pf' fd n, r = Role.fileRole pf' ∧ pf'.fileno = some fd ∧
          basePid s' (some fd) = .ok n ∧ pid_is_running s' n = true) := by
  intro fuel
  induction fuel with
  | zero =>
    intro lk pf s r s' _ _ h
    exact absurd h (by simp [opportunistic_lock])
  | succ n ih =>
    intro lk pf s r s' hlk hpf h
    simp only [opportunistic_lock] at h
    split at h
    · exact absurd h (by simp)
    · rename_i lk1 s1 heqL
      cases h
      left
      obtain ⟨hb, -⟩ | ⟨-, fd, hfd⟩ :=
        pidLockLock_handle _ _ _ _ _ _ _ heqL
      · exact absurd hb (by simp)
      · exact ⟨lk1, rfl, fd, hfd⟩
    · rename_i lk1 s1 heqL
      split at h
      · exact absurd h (by simp)
      · rename_i b0 pf1 s2 heqE
        have heqE' : pidFileLock (n + 1) pf s1 = .ok ((b0, pf1), s2) := heqE
        split at h
        · exact absurd h (by simp)
        · rename_i pf2 s3 heqR
          cases h
          right
          cases hf1 : pf1.fileno with
          | some fd =>
            simp only [pidFileIsRunning, hf1] at heqR
            cases hb : basePid s2 (some fd) with
            | error e => simp [hb] at heqR
            | ok nv =>
              simp only [hb, Except.ok.injEq, Prod.mk.injEq] at heqR
              obtain ⟨⟨hrun, hpf2⟩, hs3⟩ := heqR
              exact ⟨pf1, fd, nv, by rw [hpf2], hf1, by rw [← hs3]; exact hb,
                by rw [← hs3]; exact hrun⟩
          | none =>
            obtain ⟨-, fd, hfd⟩ | ⟨-, hpf1, hloop⟩ :=
              pidFileLock_cases _ _ _ _ _ _ heqE'
            · rw [hf1] at hfd; exact absurd hfd (by simp)
            · have hs2 : s2.pathIno = none := fileLockLoop_none_path _ _ _ hloop
              have hnr : pidFileIsRunning (n + 1) pf1 s2 =
                  .ok ((false, pf1), s2) := by
                simp [pidFileIsRunning, hf1, pidFileLock,
                  fileLockLoop_quick_none n hs2]
              rw [hnr] at heqR
              exact absurd heqR (by simp)
        · rename_i pf2 s3 heqR
          split at h
          · exact absurd h (by simp)
          · rename_i pf3 s4 heqX
            have hlk1 : lk1.fileno = none := by
              obtain ⟨-, heq⟩ | ⟨hb, -⟩ :=
                pidLockLock_handle _ _ _ _ _ _ _ heqL
              · rw [heq]; exact hlk
              · exact absurd hb (by simp)
            exact ih lk1 pf3 s4 r s' hlk1 (pidFileUnlock_ok _ _ _ _ heqX) h

/-- **C9.**  `opportunistic_lock` yields exactly one correct role object:
whenever an invocation yields, the object is either a freshly acquired
exclusive `PIDLock` (descriptor recorded) or a `PIDFile` observer holding
the read lock on a file whose PID is a running process at the yield; and in
the stale-observation state — non-blocking exclusive attempt failing while
the observer reads a PID that is not running — the exclusive attempt is
retried in another loop iteration rather than yielding the stale
observation, for every fuel budget. -/
theorem c9_opportunistic_roles :
    (∀ (fuel : Nat) (lk : PIDLock) (pf : PIDFile) (s : Sys) (r : Role)
      (s' : Sys), lk.fileno = none → pf.fileno = none →
      opportunistic_lock fuel lk pf s = .ok (r, s') →
      (∃ lk', r = Role.lockRole lk' ∧ ∃ fd, lk'.fileno = some fd) ∨
        (∃ pf' fd n, r = Role.fileRole pf' ∧ pf'.fileno = some fd ∧
          basePid s' (some fd) = .ok n ∧ pid_is_running s' n = true)) ∧
    (∀ (fuel : Nat) (lk : PIDLock) (pf : PIDFile) (ni F g : Nat)
      (t : List Event), 10 ≤ F → lk.fileno = none → pf.fileno = none →
      opportunistic_lock fuel lk pf (mkStale ni F g t) =
        .error Err.fuelExhausted) :=
  ⟨oppo_yield_roles, stale_never_yields⟩

/-- **C9, witness**: on the clean state the invocation yields (the exclusive
role, as the theorem then guarantees); on a concrete stale state every fuel
budget keeps retrying instead of yielding. -/
theorem c9_opportunistic_roles_witness :
    (∃ r s', opportunistic_lock 1 lk0 pf0 cleanSys = .ok (r, s') ∧
      ((∃ lk', r = Role.lockRole lk' ∧ ∃ fd, lk'.fileno = some fd) ∨
        (∃ pf' fd n, r = Role.fileRole pf' ∧ pf'.fileno = some fd ∧
          basePid s' (some fd) = .ok n ∧ pid_is_running s' n = true))) ∧
    opportunistic_lock 2 lk0 pf0 (mkStale 0 10 5 []) =
      .error Err.fuelExhausted :=
  ⟨⟨_, _, rfl,
    c9_opportunistic_roles.1 1 lk0 pf0 cleanSys _ _ rfl rfl rfl⟩,
   c9_opportunistic_roles.2 2 lk0 pf0 0 10 5 [] (by omega) rfl rfl⟩

end Pidfilelock
